import Mathlib

/-!
Shallow embedding of the paypadi wallet ledger (Django app) in Lean 4.

Sources embedded here:
- `src/wallets/models.py` — `Wallet` (balance / reserved_balance and the five
  model-level operations), `Transaction` (reference generation in `save`, the
  unique constraint on `reference`).
- `src/wallets/serializers.py` — `TransferFundsSerializer` validation,
  including the `KeyError` its context access raises for every structurally
  valid request (no caller supplies a serializer context).
- `src/wallets/views.py` — `TransferFundsView.post`: its reachable behaviour is
  validation failure (400) or the serializer crash (500); the transfer bodies
  are dead code.
- `src/wallets/services/payment_service.py` — `PaymentService.verify_payment`
  and `PaymentService.transfer_funds`.

Modelling conventions:
- Monetary amounts are `DecimalField(max_digits=12, decimal_places=2)` values;
  decimal arithmetic on them is exact, so they are embedded as integers counting
  minor units (kobo): `1` stands for `0.01`.
- The relational store is a `Store` record: one wallet per user (`wallets` is a
  total map, matching the one-to-one with auto-creation), the transaction table
  as a list, plus the lookup tables the transfer view consults (phone number to
  user, transaction PINs) and the notification table.
- `check_transaction_pin` hashes and compares the PIN; it is embedded as string
  equality with the stored PIN.
- Each embedded operation is one HTTP-request / test-scoped atomic unit: a
  Python-level exception that escapes the operation rolls the unit back, so the
  committed store is the pre-call store on those paths.  Paths that return a
  `Response` (even an error `Response`) commit whatever was written.
- `uuid4`, `timezone.now()` and similar nondeterministic inputs are passed in
  as explicit string parameters.
-/

namespace Paypadi

/-- Monetary amount in minor units (exact image of a 2-decimal-place Decimal). -/
abbrev Money := Int

/-- User primary key (the `AUTH_USER_MODEL` foreign keys). -/
abbrev UserId := Nat

/-- Values of `Transaction.TransactionType` (models.py lines 192-199). -/
inductive TransactionType where
  | deposit
  | withdrawal
  | transfer
  | refund
  | fee
  | reservation
  | adjustment
deriving DecidableEq, Repr

/-- Values of `Transaction.TransactionStatus` (models.py lines 201-205). -/
inductive TransactionStatus where
  | pending
  | completed
  | failed
  | cancelled
deriving DecidableEq, Repr

/-- The `Wallet` row: `balance` and `reserved_balance` (models.py lines 29-63).
The identity and currency columns play no role in the claims and are kept in
the enclosing `Store` (one wallet per user). -/
structure Wallet where
  balance : Money
  reserved_balance : Money
deriving DecidableEq, Repr

/-- The `Transaction` row (models.py lines 189-256).  `metadata` is the JSON
blob, embedded as a string-keyed association list. -/
structure Transaction where
  wallet : UserId
  amount : Money
  transaction_type : TransactionType
  status : TransactionStatus
  reference : String
  description : String
  metadata : List (String × String)
  recipient : Option UserId
deriving DecidableEq, Repr

/-- Notification row, reduced to the fields the transfer view writes
(`Notification.create_notification` in core/models.py). -/
structure Notification where
  user : UserId
  reference : String
  amount : Money
deriving DecidableEq, Repr

/-- The relational store visible to the embedded operations. -/
structure Store where
  wallets : UserId → Wallet
  transactions : List Transaction
  notifications : List Notification
  phoneOwner : String → Option UserId
  pins : UserId → String

/-- Write one wallet row (the effect of `wallet.save(update_fields=[...])`). -/
def Store.setWallet (s : Store) (u : UserId) (w : Wallet) : Store :=
  { s with wallets := fun v => if v = u then w else s.wallets v }

/-- The `available_balance` property (models.py lines 73-76). -/
def Wallet.available_balance (w : Wallet) : Money :=
  w.balance - w.reserved_balance

/-- The `can_withdraw` check (models.py lines 78-80). -/
def Wallet.can_withdraw (w : Wallet) (amount : Money) : Bool :=
  w.available_balance ≥ amount

/-- Reference generation in `Transaction.save` (models.py lines 252-256): a
missing reference becomes the fixed prefix `TXN` followed by a timestamp and
the first 8 characters of the row's UUID, uppercased.  `now` and `idFrag` are
those two nondeterministic components. -/
def Transaction.applySaveRef (t : Transaction) (now idFrag : String) : Transaction :=
  if t.reference = "" then { t with reference := "TXN" ++ now ++ idFrag } else t

/-- Insert into the transaction table.  `reference` carries a database `unique`
constraint (models.py line 227); a duplicate insert raises `IntegrityError`,
modelled as `none`. -/
def insertTxn (txns : List Transaction) (t : Transaction) : Option (List Transaction) :=
  if txns.any (fun t0 => t0.reference = t.reference) then none else some (txns ++ [t])

/-- Update-by-reference of a transaction row's status, the effect of loading a
row by its unique reference and calling `save(update_fields=['status'])`. -/
def setTxnStatus (txns : List Transaction) (ref : String) (st : TransactionStatus) :
    List Transaction :=
  txns.map (fun t => if t.reference = ref then { t with status := st } else t)

/-- Update-by-reference of a transaction row's status together with a metadata
append (`metadata[...] = ...; save(update_fields=['status', 'metadata'])`). -/
def setTxnStatusMeta (txns : List Transaction) (ref : String) (st : TransactionStatus)
    (entry : String × String) : List Transaction :=
  txns.map (fun t =>
    if t.reference = ref then { t with status := st, metadata := t.metadata ++ [entry] } else t)

/-- The result of one model-level wallet operation: the updated wallet row and
transaction table, or the message of the `ValueError` it raises. -/
abbrev WalletOpResult := Except String (Wallet × List Transaction)

/-- `Wallet.deposit` (models.py lines 82-98): reject non-positive amounts,
credit the balance, insert a completed deposit transaction (whose reference is
generated by `Transaction.save` when the caller left it empty). -/
def Wallet.deposit (w : Wallet) (owner : UserId) (txns : List Transaction) (amount : Money)
    (reference now idFrag : String) : WalletOpResult :=
  if amount ≤ 0 then .error "Deposit amount must be greater than zero"
  else
    match insertTxn txns (Transaction.applySaveRef
      { wallet := owner, amount := amount, transaction_type := .deposit,
        status := .completed, reference := reference, description := "",
        metadata := [], recipient := none } now idFrag) with
    | none => .error "IntegrityError"
    | some txns1 => .ok ({ w with balance := w.balance + amount }, txns1)

/-- `Wallet.withdraw` (models.py lines 100-119): reject non-positive amounts
and insufficient available balance, debit the balance, insert a completed
withdrawal transaction. -/
def Wallet.withdraw (w : Wallet) (owner : UserId) (txns : List Transaction) (amount : Money)
    (reference now idFrag : String) : WalletOpResult :=
  if amount ≤ 0 then .error "Withdrawal amount must be greater than zero"
  else if ¬ w.can_withdraw amount then .error "Insufficient funds"
  else
    match insertTxn txns (Transaction.applySaveRef
      { wallet := owner, amount := amount, transaction_type := .withdrawal,
        status := .completed, reference := reference, description := "",
        metadata := [], recipient := none } now idFrag) with
    | none => .error "IntegrityError"
    | some txns1 => .ok ({ w with balance := w.balance - amount }, txns1)

/-- `Wallet.reserve_funds` (models.py lines 121-142): reject non-positive
amounts and insufficient available balance, grow `reserved_balance`, insert a
pending reservation transaction. -/
def Wallet.reserve_funds (w : Wallet) (owner : UserId) (txns : List Transaction) (amount : Money)
    (reference now idFrag : String) : WalletOpResult :=
  if amount ≤ 0 then .error "Amount must be greater than zero"
  else if ¬ w.can_withdraw amount then .error "Insufficient available balance"
  else
    match insertTxn txns (Transaction.applySaveRef
      { wallet := owner, amount := amount, transaction_type := .reservation,
        status := .pending, reference := reference, description := "",
        metadata := [], recipient := none } now idFrag) with
    | none => .error "IntegrityError"
    | some txns1 => .ok ({ w with reserved_balance := w.reserved_balance + amount }, txns1)

/-- Shared tail of `release_reserved_funds` / `complete_reservation`: when a
reference was passed, load the pending reservation with that reference and move
it to `newStatus`; a missing reservation row is silently tolerated
(models.py lines 152-164 and 174-186). -/
def closeReservationTxn (txns : List Transaction) (reference : String)
    (newStatus : TransactionStatus) : List Transaction :=
  if reference ≠ "" then
    txns.map (fun t =>
      if t.reference = reference ∧ t.transaction_type = .reservation ∧ t.status = .pending
      then { t with status := newStatus } else t)
  else txns

/-- `Wallet.release_reserved_funds` (models.py lines 144-164): require
`0 < amount ≤ reserved_balance`, shrink `reserved_balance`, cancel the original
reservation transaction when it can be found. -/
def Wallet.release_reserved_funds (w : Wallet) (txns : List Transaction) (amount : Money)
    (reference : String) : WalletOpResult :=
  if amount ≤ 0 ∨ amount > w.reserved_balance then .error "Invalid amount to release"
  else
    .ok ({ w with reserved_balance := w.reserved_balance - amount },
         closeReservationTxn txns reference .cancelled)

/-- `Wallet.complete_reservation` (models.py lines 166-186): require
`0 < amount ≤ reserved_balance`, shrink `reserved_balance` (the total `balance`
column is not touched), complete the original reservation transaction when it
can be found. -/
def Wallet.complete_reservation (w : Wallet) (txns : List Transaction) (amount : Money)
    (reference : String) : WalletOpResult :=
  if amount ≤ 0 ∨ amount > w.reserved_balance then .error "Invalid amount to complete"
  else
    .ok ({ w with reserved_balance := w.reserved_balance - amount },
         closeReservationTxn txns reference .completed)

/-- Python truthiness of an optional string field: absent (`None`) and the
empty string are falsy, everything else truthy. -/
def truthy : Option String → Bool
  | none => false
  | some s => s ≠ ""

/-- Python `str.lower()` on the gateway's ASCII status strings. -/
def strLower (s : String) : String := String.mk (s.data.map Char.toLower)

/-- The validated payload of `TransferFundsSerializer` (serializers.py lines
159-204): required `amount` and `pin`, optional description, the three raw
recipient fields and the saved-beneficiary id. -/
structure TransferAttrs where
  amount : Money
  pin : String
  description : String
  recipient_phone : Option String
  recipient_account_number : Option String
  recipient_bank_code : Option String
  beneficiary_id : Option Nat
deriving DecidableEq, Repr

/-- Field-level constraints declared on `TransferFundsSerializer` (serializers.py
lines 161-204): `amount` has `min_value=0.01` and `max_digits=12`, `pin` has
`min_length=4, max_length=6`, `description` has `max_length=255`. -/
def fieldValidate (attrs : TransferAttrs) : Bool :=
  1 ≤ attrs.amount ∧ attrs.amount ≤ 999999999999 ∧
  4 ≤ attrs.pin.length ∧ attrs.pin.length ≤ 6 ∧
  attrs.description.length ≤ 255

/-- Outcome of `TransferFundsSerializer.validate`: either one of the
`serializers.ValidationError`s of lines 214-236 (turned into a 400 response by
`is_valid()`), or the uncaught `KeyError` raised at line 239.  Neither caller
of this serializer (`TransferFundsView.post`, views.py line 66, and the
payment-API transfer view) passes a `context` when constructing it, so once the
structural checks pass, `self.context['request']` reads the default empty
context and raises `KeyError`, which `is_valid()` does not catch: the method
never returns validated data in this repository. -/
inductive ValidateResult where
  | error (msg : String)
  | keyError
deriving DecidableEq, Repr

/-- Object-level `TransferFundsSerializer.validate` (serializers.py lines
206-250): require at least one recipient source, reject mixing `beneficiary_id`
with any raw recipient field, and require consistent raw fields; past those
checks, line 239 evaluates `self.context['request']`, and since the serializer
is constructed without a context this raises `KeyError` before the PIN and
balance re-checks of lines 241-248 can run. -/
def TransferFundsSerializer.validate (attrs : TransferAttrs) : ValidateResult :=
  let recipient_phone := attrs.recipient_phone
  let recipient_account := attrs.recipient_account_number
  let recipient_bank := attrs.recipient_bank_code
  let beneficiary_id := attrs.beneficiary_id
  if ¬ (beneficiary_id.isSome ∨ truthy recipient_phone ∨
        (truthy recipient_account ∧ truthy recipient_bank)) then
    .error "Either beneficiary_id or recipient details (phone or account+bank) must be provided."
  else if beneficiary_id.isSome ∧
      (truthy recipient_phone ∨ truthy recipient_account ∨ truthy recipient_bank) then
    .error "Do not provide recipient details when using beneficiary_id."
  else if beneficiary_id.isNone ∧ truthy recipient_phone ∧
      (truthy recipient_account ∨ truthy recipient_bank) then
    .error "Cannot provide both phone number and bank account details."
  else if beneficiary_id.isNone ∧ truthy recipient_account ∧ ¬ truthy recipient_bank then
    .error "Bank code is required when providing account number."
  else if beneficiary_id.isNone ∧ truthy recipient_bank ∧ ¬ truthy recipient_account then
    .error "Account number is required when providing bank code."
  else
    .keyError

/-- The possible responses of `TransferFundsView.post`.  `success` is the 200
response built at views.py lines 189-196 and 224-230; it is kept as the shape
of the source's success path, which is unreachable because serializer
validation crashes first on every structurally valid request. -/
inductive TransferViewResult where
  | invalid (msg : String)
  | serverError
  | success (reference : String)
deriving DecidableEq, Repr

/-- `TransferFundsView.post` (views.py lines 65-258).

The view constructs `TransferFundsSerializer(data=request.data)` with no
`context` (line 66) and calls `serializer.is_valid()` (line 67).  Field-level
validation failures and the structural `ValidationError`s of
`TransferFundsSerializer.validate` produce the 400 response of line 68 with no
store access.  Every request that passes those checks hits the `KeyError` at
serializers.py line 239 inside `is_valid()`; `is_valid` catches only
`ValidationError`, so the exception escapes the view before line 70 and the
request fails with a 500 and no database write.  The rest of the method — the
PIN check (line 75), the balance check (line 86), the beneficiary branch, the
transaction insert and the internal/external transfer bodies (lines 75-258) —
is unreachable and therefore has no image in the committed-state semantics. -/
def TransferFundsView.post (s : Store) (user : UserId) (attrs : TransferAttrs)
    (now : String) : TransferViewResult × Store :=
  if ¬ fieldValidate attrs then (.invalid "field validation", s)
  else
    match TransferFundsSerializer.validate attrs with
    | .error m => (.invalid m, s)
    | .keyError => (.serverError, s)

/-- Behaviour of `gateway.verify_payment(reference)`: either the returned dict
(`status` key, `message`, `data.status`) or a raised exception. -/
inductive GatewayVerify where
  | ok (status : Bool) (message : String) (gstatus : String)
  | exn (msg : String)
deriving DecidableEq, Repr

/-- Behaviour of `gateway.transfer_funds(...)`: either the returned dict
(optional `data.reference`, `data.status`) or a raised exception. -/
inductive GatewayTransfer where
  | ok (gref : Option String) (gstatus : String)
  | exn (msg : String)
deriving DecidableEq, Repr

/-- The envelope `verify_payment` returns: the dict's top-level `status` key
and its `data.status` string. -/
structure VerifyReturn where
  retOk : Bool
  dstatus : String
deriving DecidableEq, Repr

/-- `PaymentService.verify_payment` (payment_service.py lines 109-214).

Returns the result (or the raised `PaymentError` message), the resulting store,
and whether the gateway was contacted.  Faithful branch order:
- unknown reference: `PaymentError`, nothing written, gateway not contacted;
- transaction already `completed` (line 122): return the already-verified
  envelope immediately, nothing written, gateway not contacted;
- otherwise call the gateway; a raised gateway exception reaches the generic
  handler (line 212) before any write;
- gateway dict with falsy `status` (line 136): mark the transaction failed with
  `verification_error` metadata, and for transfer-type transactions credit the
  amount back to the wallet;
- `data.status == 'successful'` (line 159): mark completed with `completed_at`
  metadata, and for deposit-type transactions credit the wallet;
- `data.status == 'failed'` (line 180): mark failed (status column only), and
  for transfer-type transactions credit the amount back to the wallet;
- anything else: still pending, nothing written. -/
def PaymentService.verify_payment (s : Store) (reference : String) (now : String)
    (gw : GatewayVerify) : Except String VerifyReturn × Store × Bool :=
  match s.transactions.find? (fun t => t.reference = reference) with
  | none =>
    (.error ("Transaction with reference " ++ reference ++ " not found"), s, false)
  | some txn =>
    if txn.status = .completed then
      (.ok { retOk := true, dstatus := "completed" }, s, false)
    else
      match gw with
      | .exn msg => (.error ("Failed to verify payment: " ++ msg), s, true)
      | .ok gok gmsg gstatus =>
        if gok = false then
          let txnsf := setTxnStatusMeta s.transactions reference .failed ("verification_error", gmsg)
          let s1 : Store := { s with transactions := txnsf }
          let s2 :=
            if txn.transaction_type = .transfer then
              let w := s1.wallets txn.wallet
              s1.setWallet txn.wallet { w with balance := w.balance + txn.amount }
            else s1
          (.ok { retOk := false, dstatus := "failed" }, s2, true)
        else if strLower gstatus = "successful" then
          let txnsc := setTxnStatusMeta s.transactions reference .completed ("completed_at", now)
          let s1 : Store := { s with transactions := txnsc }
          let s2 :=
            if txn.transaction_type = .deposit then
              let w := s1.wallets txn.wallet
              s1.setWallet txn.wallet { w with balance := w.balance + txn.amount }
            else s1
          (.ok { retOk := true, dstatus := "completed" }, s2, true)
        else if strLower gstatus = "failed" then
          let txnsd := setTxnStatus s.transactions reference .failed
          let s1 : Store := { s with transactions := txnsd }
          let s2 :=
            if txn.transaction_type = .transfer then
              let w := s1.wallets txn.wallet
              s1.setWallet txn.wallet { w with balance := w.balance + txn.amount }
            else s1
          (.ok { retOk := false, dstatus := "failed" }, s2, true)
        else
          (.ok { retOk := true, dstatus := "pending" }, s, true)

/-- Body of the `with db_transaction.atomic()` block of
`PaymentService.transfer_funds` (payment_service.py lines 248-323), written as
straight-line state updates.  The returned store is the state of the block's
writes at the moment the block exits — on the exception path this is the state
at the `raise PaymentError` (line 323), including the failed-status /
error-metadata write and the compensating credit that the raise then rolls
back.  `wallet` is the sender row as read by the `select_for_update` before the
block (line 240). -/
def transferFundsBlock (s : Store) (sender : UserId) (wallet : Wallet) (amount : Money)
    (recipient_account recipient_bank_code description reference now : String)
    (gw : GatewayTransfer) : Except String (String × TransactionStatus) × Store :=
  let txn : Transaction :=
    { wallet := sender, amount := amount, transaction_type := .transfer,
      status := .pending, reference := reference, description := description,
      metadata :=
        [("recipient_account", recipient_account),
         ("recipient_bank_code", recipient_bank_code)],
      recipient := none }
  match insertTxn s.transactions txn with
  | none => (.error "IntegrityError", s)
  | some txns1 =>
    let s1 : Store := { s with transactions := txns1 }
    let s2 := s1.setWallet sender { wallet with balance := wallet.balance - amount }
    match gw with
    | .exn msg =>
      let txnse := setTxnStatusMeta s2.transactions reference .failed ("error", msg)
      let s3 : Store := { s2 with transactions := txnse }
      let s4 := s3.setWallet sender
        { wallet with balance := wallet.balance - amount + amount }
      (.error ("Failed to initiate transfer: " ++ msg), s4)
    | .ok gref gstatus =>
      let newStatus : TransactionStatus :=
        if strLower gstatus = "successful" then .completed else .pending
      let extraMeta : List (String × String) :=
        (match gref with
         | some g => [("gateway_reference", g)]
         | none => []) ++
        (if strLower gstatus = "successful" then [("completed_at", now)] else [])
      let txnso := s2.transactions.map (fun t =>
        if t.reference = reference then
          { t with status := newStatus, metadata := t.metadata ++ extraMeta }
        else t)
      let s3 : Store := { s2 with transactions := txnso }
      (.ok (reference, newStatus), s3)

/-- `PaymentService.transfer_funds` (payment_service.py lines 216-323),
committed-state semantics.  The sender row is read and the available-balance
check made before the atomic block (lines 240-244); the reference is
`TRF-` plus 8 uppercased hex characters of a fresh uuid4 (line 358).  A raised
exception that escapes the `db_transaction.atomic()` block rolls every write of
the block back, so the committed store on those paths is the pre-call store. -/
def PaymentService.transfer_funds (s : Store) (sender : UserId) (amount : Money)
    (recipient_account recipient_bank_code description uuid8 now : String)
    (gw : GatewayTransfer) : Except String (String × TransactionStatus) × Store :=
  let wallet := s.wallets sender
  if wallet.available_balance < amount then (.error "Insufficient balance", s)
  else
    let reference := "TRF-" ++ uuid8
    match transferFundsBlock s sender wallet amount recipient_account
        recipient_bank_code description reference now gw with
    | (.error e, _) => (.error e, s)
    | (.ok r, s1) => (.ok r, s1)

/-- One observable wallet operation of the system: the five model-level wallet
methods, an internal or external transfer through `TransferFundsView.post`, an
external transfer through `PaymentService.transfer_funds`, and a verification
through `PaymentService.verify_payment`.  Nondeterministic inputs (timestamps,
uuid fragments, gateway behaviour) are carried by the constructor. -/
inductive WalletOp where
  | opDeposit (u : UserId) (amount : Money) (reference now idFrag : String)
  | opWithdraw (u : UserId) (amount : Money) (reference now idFrag : String)
  | opReserve (u : UserId) (amount : Money) (reference now idFrag : String)
  | opRelease (u : UserId) (amount : Money) (reference : String)
  | opComplete (u : UserId) (amount : Money) (reference : String)
  | opViewTransfer (u : UserId) (attrs : TransferAttrs) (now : String)
  | opServiceTransfer (u : UserId) (amount : Money)
      (recipient_account recipient_bank_code description uuid8 now : String)
      (gw : GatewayTransfer)
  | opVerifyPayment (reference now : String) (gw : GatewayVerify)

/-- Run one operation against the store and keep the committed state.  A
model-method `ValueError` (or an `IntegrityError` from the unique-reference
constraint) escapes the request's atomic unit, which rolls it back, so those
paths commit the unchanged store; the view and service embeddings already
return committed stores. -/
def runOp (s : Store) (op : WalletOp) : Store :=
  match op with
  | .opDeposit u amount reference now idFrag =>
    match (s.wallets u).deposit u s.transactions amount reference now idFrag with
    | .error _ => s
    | .ok (w1, txns1) => { s.setWallet u w1 with transactions := txns1 }
  | .opWithdraw u amount reference now idFrag =>
    match (s.wallets u).withdraw u s.transactions amount reference now idFrag with
    | .error _ => s
    | .ok (w1, txns1) => { s.setWallet u w1 with transactions := txns1 }
  | .opReserve u amount reference now idFrag =>
    match (s.wallets u).reserve_funds u s.transactions amount reference now idFrag with
    | .error _ => s
    | .ok (w1, txns1) => { s.setWallet u w1 with transactions := txns1 }
  | .opRelease u amount reference =>
    match (s.wallets u).release_reserved_funds s.transactions amount reference with
    | .error _ => s
    | .ok (w1, txns1) => { s.setWallet u w1 with transactions := txns1 }
  | .opComplete u amount reference =>
    match (s.wallets u).complete_reservation s.transactions amount reference with
    | .error _ => s
    | .ok (w1, txns1) => { s.setWallet u w1 with transactions := txns1 }
  | .opViewTransfer u attrs now => (TransferFundsView.post s u attrs now).2
  | .opServiceTransfer u amount acct bank descr uuid8 now gw =>
    (PaymentService.transfer_funds s u amount acct bank descr uuid8 now gw).2
  | .opVerifyPayment reference now gw =>
    (PaymentService.verify_payment s reference now gw).2.1

/-- Run a sequence of operations left to right. -/
def runOps (s : Store) (ops : List WalletOp) : Store :=
  ops.foldl runOp s

/-- Wallet-row health: both columns carry `MinValueValidator(0.00)` and the
reserved amount never exceeds the balance, which is exactly
`available_balance ≥ 0`. -/
def WalletInv (w : Wallet) : Prop :=
  0 ≤ w.reserved_balance ∧ w.reserved_balance ≤ w.balance

/-- Store-wide invariant: every wallet row is healthy and every transaction row
has a positive amount. -/
def StoreInv (s : Store) : Prop :=
  (∀ u, WalletInv (s.wallets u)) ∧ ∀ t ∈ s.transactions, 0 < t.amount

/-- Positivity side condition on an operation's amount argument.  Every
operation except `PaymentService.transfer_funds` validates it internally;
`transfer_funds` only checks `available_balance < amount` (payment_service.py
line 243), so its positivity must come from the caller. -/
def OpAmountPos : WalletOp → Prop
  | .opServiceTransfer _ amount _ _ _ _ _ _ => 0 < amount
  | _ => True

/-- Example store for concrete evaluations: user 0 holds 10000.00 NGN, user 1
holds 5000.00 NGN, nothing reserved, phone numbers resolving to users 0 and 1,
all PINs 1234. -/
def exampleStore : Store :=
  { wallets := fun u => if u = 0 then ⟨1000000, 0⟩ else if u = 1 then ⟨500000, 0⟩ else ⟨0, 0⟩,
    transactions := [],
    notifications := [],
    phoneOwner := fun p =>
      if p = "+2347000000000" then some 0 else if p = "+2347000000002" then some 1 else none,
    pins := fun _ => "1234" }

/-- A store in which every wallet is empty and healthy. -/
def zeroStore : Store :=
  { wallets := fun _ => ⟨0, 0⟩, transactions := [], notifications := [],
    phoneOwner := fun _ => none, pins := fun _ => "1234" }

/-- A valid transfer request of 2000.00 NGN from user 0 to user 1 by phone. -/
def exampleAttrs : TransferAttrs :=
  { amount := 200000, pin := "1234", description := "",
    recipient_phone := some "+2347000000002",
    recipient_account_number := none, recipient_bank_code := none,
    beneficiary_id := none }

/-- The same transfer request aimed at the sender's own phone number. -/
def selfAttrs : TransferAttrs :=
  { exampleAttrs with recipient_phone := some "+2347000000000" }

/-- A completed deposit transaction of 2000.00 NGN for user 0. -/
def completedTxn : Transaction :=
  { wallet := 0, amount := 200000, transaction_type := .deposit,
    status := .completed, reference := "DEP-1", description := "",
    metadata := [], recipient := none }

/-- A failed transfer transaction of 3000.00 NGN for user 0. -/
def failedTransferTxn : Transaction :=
  { wallet := 0, amount := 300000, transaction_type := .transfer,
    status := .failed, reference := "TRF-F1", description := "",
    metadata := [], recipient := none }

/-- The example store together with the completed deposit transaction. -/
def storeWithCompleted : Store := { exampleStore with transactions := [completedTxn] }

/-- The example store together with the failed transfer transaction. -/
def storeWithFailed : Store := { exampleStore with transactions := [failedTransferTxn] }

/-- A deposit row persisted without a caller-supplied reference. -/
def depositTxnNoRef : Transaction :=
  { wallet := 0, amount := 100, transaction_type := .deposit,
    status := .completed, reference := "", description := "",
    metadata := [], recipient := none }

/-- The same row as a transfer. -/
def transferTxnNoRef : Transaction :=
  { depositTxnNoRef with transaction_type := .transfer }

/-- A sequence of operations exercising `PaymentService.transfer_funds` with a
negative amount followed by two failed gateway verifications of the resulting
transfer transaction. -/
def negTransferOps : List WalletOp :=
  [ .opServiceTransfer 0 (-10000) "0123456789" "057" "payout" "AB12CD34"
      "20250101000000" (.ok none "pending"),
    .opVerifyPayment "TRF-AB12CD34" "20250101000100" (.ok true "declined" "failed"),
    .opVerifyPayment "TRF-AB12CD34" "20250101000200" (.ok true "declined" "failed") ]

theorem walletInv_available {w : Wallet} (h : WalletInv w) : 0 ≤ w.available_balance := by
  simp only [Wallet.available_balance, sub_nonneg]
  exact h.2

theorem setWallet_walletInv {s : Store} {v : UserId} {w : Wallet}
    (hs : ∀ u, WalletInv (s.wallets u)) (hw : WalletInv w) :
    ∀ u, WalletInv ((s.setWallet v w).wallets u) := by
  intro u
  simp only [Store.setWallet]
  by_cases h : u = v
  · simpa [h]
  · simpa [h] using hs u

theorem amounts_pos_map {txns : List Transaction} {f : Transaction → Transaction}
    (hf : ∀ t, (f t).amount = t.amount) (h : ∀ t ∈ txns, 0 < t.amount) :
    ∀ t ∈ txns.map f, 0 < t.amount := by
  intro t htmem
  rcases List.mem_map.mp htmem with ⟨t0, ht0, rfl⟩
  rw [hf]
  exact h t0 ht0

theorem amounts_pos_append {txns : List Transaction} {t0 : Transaction}
    (h : ∀ t ∈ txns, 0 < t.amount) (h0 : 0 < t0.amount) :
    ∀ t ∈ txns ++ [t0], 0 < t.amount := by
  intro t htmem
  rcases List.mem_append.mp htmem with hmem | hmem
  · exact h t hmem
  · rcases List.mem_singleton.mp hmem with rfl
    exact h0

theorem insertTxn_ok {txns txns1 : List Transaction} {t : Transaction}
    (h : insertTxn txns t = some txns1) :
    txns1 = txns ++ [t] ∧ ∀ t0 ∈ txns, t0.reference ≠ t.reference := by
  unfold insertTxn at h
  split at h
  · simp at h
  · next hany =>
    cases h
    refine ⟨rfl, ?_⟩
    intro t0 ht0
    simp only [List.any_eq_true, not_exists, not_and] at hany
    exact fun he => (hany t0 ht0) (by simp [he])

theorem insertTxn_amounts {txns txns1 : List Transaction} {t0 : Transaction}
    (hins : insertTxn txns t0 = some txns1) (h : ∀ t ∈ txns, 0 < t.amount)
    (h0 : 0 < t0.amount) : ∀ t ∈ txns1, 0 < t.amount := by
  rcases insertTxn_ok hins with ⟨rfl, -⟩
  exact amounts_pos_append h h0

theorem setTxnStatus_amounts {txns : List Transaction} {ref : String}
    {st : TransactionStatus} (h : ∀ t ∈ txns, 0 < t.amount) :
    ∀ t ∈ setTxnStatus txns ref st, 0 < t.amount := by
  refine amounts_pos_map ?_ h
  intro t
  split <;> rfl

theorem setTxnStatusMeta_amounts {txns : List Transaction} {ref : String}
    {st : TransactionStatus} {entry : String × String}
    (h : ∀ t ∈ txns, 0 < t.amount) :
    ∀ t ∈ setTxnStatusMeta txns ref st entry, 0 < t.amount := by
  refine amounts_pos_map ?_ h
  intro t
  split <;> rfl

theorem closeReservationTxn_amounts {txns : List Transaction} {ref : String}
    {st : TransactionStatus} (h : ∀ t ∈ txns, 0 < t.amount) :
    ∀ t ∈ closeReservationTxn txns ref st, 0 < t.amount := by
  unfold closeReservationTxn
  split
  · refine amounts_pos_map ?_ h
    intro t
    split <;> rfl
  · exact h

theorem applySaveRef_amount (t : Transaction) (now idFrag : String) :
    (t.applySaveRef now idFrag).amount = t.amount := by
  unfold Transaction.applySaveRef
  split <;> rfl

theorem applySaveRef_keeps {t : Transaction} (h : t.reference ≠ "") (now idFrag : String) :
    t.applySaveRef now idFrag = t := by
  unfold Transaction.applySaveRef
  simp [h]

theorem deposit_ok {w w1 : Wallet} {owner : UserId} {txns txns1 : List Transaction}
    {amount : Money} {reference now idFrag : String}
    (h : w.deposit owner txns amount reference now idFrag = .ok (w1, txns1)) :
    0 < amount ∧ w1.balance = w.balance + amount ∧
    w1.reserved_balance = w.reserved_balance ∧
    ∃ tnew : Transaction, tnew.amount = amount ∧ txns1 = txns ++ [tnew] := by
  unfold Wallet.deposit at h
  split at h
  · simp at h
  · next hamt =>
    split at h
    · simp at h
    · next heq =>
      cases h
      exact ⟨lt_of_not_le hamt, rfl, rfl, _, applySaveRef_amount _ _ _, (insertTxn_ok heq).1⟩

theorem withdraw_ok {w w1 : Wallet} {owner : UserId} {txns txns1 : List Transaction}
    {amount : Money} {reference now idFrag : String}
    (h : w.withdraw owner txns amount reference now idFrag = .ok (w1, txns1)) :
    0 < amount ∧ amount ≤ w.available_balance ∧
    w1.balance = w.balance - amount ∧
    w1.reserved_balance = w.reserved_balance ∧
    ∃ tnew : Transaction, tnew.amount = amount ∧ txns1 = txns ++ [tnew] := by
  unfold Wallet.withdraw at h
  split at h
  · simp at h
  · next hamt =>
    split at h
    · simp at h
    · next hcw =>
      split at h
      · simp at h
      · next heq =>
        cases h
        refine ⟨lt_of_not_le hamt, ?_, rfl, rfl, _, applySaveRef_amount _ _ _, (insertTxn_ok heq).1⟩
        simpa [Wallet.can_withdraw, ge_iff_le] using hcw

theorem reserve_funds_ok {w w1 : Wallet} {owner : UserId} {txns txns1 : List Transaction}
    {amount : Money} {reference now idFrag : String}
    (h : w.reserve_funds owner txns amount reference now idFrag = .ok (w1, txns1)) :
    0 < amount ∧ amount ≤ w.available_balance ∧
    w1.balance = w.balance ∧
    w1.reserved_balance = w.reserved_balance + amount ∧
    ∃ tnew : Transaction, tnew.amount = amount ∧ txns1 = txns ++ [tnew] := by
  unfold Wallet.reserve_funds at h
  split at h
  · simp at h
  · next hamt =>
    split at h
    · simp at h
    · next hcw =>
      split at h
      · simp at h
      · next heq =>
        cases h
        refine ⟨lt_of_not_le hamt, ?_, rfl, rfl, _, applySaveRef_amount _ _ _, (insertTxn_ok heq).1⟩
        simpa [Wallet.can_withdraw, ge_iff_le] using hcw

theorem release_reserved_funds_ok {w w1 : Wallet} {txns txns1 : List Transaction}
    {amount : Money} {reference : String}
    (h : w.release_reserved_funds txns amount reference = .ok (w1, txns1)) :
    0 < amount ∧ amount ≤ w.reserved_balance ∧
    w1.balance = w.balance ∧
    w1.reserved_balance = w.reserved_balance - amount ∧
    txns1 = closeReservationTxn txns reference .cancelled := by
  unfold Wallet.release_reserved_funds at h
  split at h
  · simp at h
  · next hc =>
    cases h
    push_neg at hc
    exact ⟨hc.1, hc.2, rfl, rfl, rfl⟩

theorem complete_reservation_ok {w w1 : Wallet} {txns txns1 : List Transaction}
    {amount : Money} {reference : String}
    (h : w.complete_reservation txns amount reference = .ok (w1, txns1)) :
    0 < amount ∧ amount ≤ w.reserved_balance ∧
    w1.balance = w.balance ∧
    w1.reserved_balance = w.reserved_balance - amount ∧
    txns1 = closeReservationTxn txns reference .completed := by
  unfold Wallet.complete_reservation at h
  split at h
  · simp at h
  · next hc =>
    cases h
    push_neg at hc
    exact ⟨hc.1, hc.2, rfl, rfl, rfl⟩

theorem credit_walletInv {s : Store} {v : UserId} {a : Money}
    (hs : ∀ u, WalletInv (s.wallets u)) (ha : 0 ≤ a) :
    ∀ u, WalletInv ((s.setWallet v { s.wallets v with balance := (s.wallets v).balance + a }).wallets u) := by
  refine setWallet_walletInv hs ?_
  obtain ⟨h1, h2⟩ := hs v
  exact ⟨h1, show (s.wallets v).reserved_balance ≤ (s.wallets v).balance + a by linarith⟩

theorem verify_payment_storeInv {s : Store} (reference now : String) (gw : GatewayVerify)
    (hs : StoreInv s) : StoreInv (PaymentService.verify_payment s reference now gw).2.1 := by
  obtain ⟨hw, ht⟩ := hs
  unfold PaymentService.verify_payment
  cases hfind : s.transactions.find? (fun t => t.reference = reference) with
  | none => exact ⟨hw, ht⟩
  | some txn =>
    have htxn : 0 < txn.amount := ht txn (List.mem_of_find?_eq_some hfind)
    dsimp only
    by_cases hc : txn.status = TransactionStatus.completed
    · rw [if_pos hc]
      exact ⟨hw, ht⟩
    · rw [if_neg hc]
      cases gw with
      | exn msg => exact ⟨hw, ht⟩
      | ok gok gmsg gstatus =>
        dsimp only
        by_cases hok : gok = false
        · rw [if_pos hok]
          split
          · exact ⟨credit_walletInv (fun u => hw u) (le_of_lt htxn), setTxnStatusMeta_amounts ht⟩
          · exact ⟨fun u => hw u, setTxnStatusMeta_amounts ht⟩
        · rw [if_neg hok]
          by_cases hsucc : strLower gstatus = "successful"
          · rw [if_pos hsucc]
            split
            · exact ⟨credit_walletInv (fun u => hw u) (le_of_lt htxn), setTxnStatusMeta_amounts ht⟩
            · exact ⟨fun u => hw u, setTxnStatusMeta_amounts ht⟩
          · rw [if_neg hsucc]
            by_cases hfail : strLower gstatus = "failed"
            · rw [if_pos hfail]
              split
              · exact ⟨credit_walletInv (fun u => hw u) (le_of_lt htxn), setTxnStatus_amounts ht⟩
              · exact ⟨fun u => hw u, setTxnStatus_amounts ht⟩
            · rw [if_neg hfail]
              exact ⟨hw, ht⟩


theorem transferFundsBlock_ok_storeInv {s : Store} {sender : UserId} {amount : Money}
    {acct bank descr reference now : String} {gw : GatewayTransfer}
    {r : String × TransactionStatus} {s1 : Store}
    (hblk : transferFundsBlock s sender (s.wallets sender) amount acct bank descr reference now gw
      = (.ok r, s1))
    (hw : ∀ u, WalletInv (s.wallets u)) (ht : ∀ t ∈ s.transactions, 0 < t.amount)
    (hpos : 0 < amount) (hbal : amount ≤ (s.wallets sender).available_balance) :
    StoreInv s1 := by
  unfold transferFundsBlock at hblk
  dsimp only at hblk
  split at hblk
  · simp at hblk
  · next txns1 hins =>
    cases gw with
    | exn msg => simp at hblk
    | ok gref gstatus =>
      dsimp only at hblk
      cases hblk
      constructor
      · refine setWallet_walletInv hw ?_
        obtain ⟨h1, h2⟩ := hw sender
        have hav : (s.wallets sender).reserved_balance ≤ (s.wallets sender).balance - amount := by
          have := hbal
          unfold Wallet.available_balance at this
          linarith
        exact ⟨h1, hav⟩
      · refine amounts_pos_map ?_ (insertTxn_amounts hins ht hpos)
        intro t
        split <;> rfl

theorem transfer_funds_storeInv {s : Store} {sender : UserId} {amount : Money}
    (acct bank descr uuid8 now : String) (gw : GatewayTransfer)
    (hs : StoreInv s) (hpos : 0 < amount) :
    StoreInv (PaymentService.transfer_funds s sender amount acct bank descr uuid8 now gw).2 := by
  obtain ⟨hw, ht⟩ := hs
  unfold PaymentService.transfer_funds
  dsimp only
  by_cases hbal : (s.wallets sender).available_balance < amount
  · rw [if_pos hbal]
    exact ⟨hw, ht⟩
  · rw [if_neg hbal]
    rcases hblk : transferFundsBlock s sender (s.wallets sender) amount acct bank descr
      ("TRF-" ++ uuid8) now gw with ⟨res, s1⟩
    cases res with
    | error e => exact ⟨hw, ht⟩
    | ok r => exact transferFundsBlock_ok_storeInv hblk hw ht hpos (not_lt.mp hbal)

theorem post_store_unchanged (s : Store) (u : UserId) (attrs : TransferAttrs)
    (now : String) : (TransferFundsView.post s u attrs now).2 = s := by
  unfold TransferFundsView.post
  split
  · rfl
  · cases TransferFundsSerializer.validate attrs <;> rfl

theorem post_never_success (s : Store) (u : UserId) (attrs : TransferAttrs)
    (now : String) : ∀ ref, (TransferFundsView.post s u attrs now).1 ≠ .success ref := by
  intro ref
  unfold TransferFundsView.post
  split
  · intro h
    cases h
  · cases TransferFundsSerializer.validate attrs <;> intro h <;> cases h

theorem post_storeInv {s : Store} {u : UserId} {attrs : TransferAttrs} {now : String}
    (hs : StoreInv s) : StoreInv (TransferFundsView.post s u attrs now).2 := by
  rw [post_store_unchanged]
  exact hs

theorem runOp_storeInv {s : Store} (op : WalletOp) (hs : StoreInv s) (hpos : OpAmountPos op) :
    StoreInv (runOp s op) := by
  obtain ⟨hw, ht⟩ := hs
  cases op with
  | opDeposit u amount reference now idFrag =>
    dsimp only [runOp]
    cases hdep : (s.wallets u).deposit u s.transactions amount reference now idFrag with
    | error e => exact ⟨hw, ht⟩
    | ok p =>
      obtain ⟨w1, txns1⟩ := p
      obtain ⟨hpos1, hbal, hres, tnew, htn, rfl⟩ := deposit_ok hdep
      refine ⟨setWallet_walletInv hw ?_, amounts_pos_append ht (by linarith)⟩
      obtain ⟨h1, h2⟩ := hw u
      exact ⟨by rw [hres]; exact h1, by rw [hres, hbal]; linarith⟩
  | opWithdraw u amount reference now idFrag =>
    dsimp only [runOp]
    cases hwd : (s.wallets u).withdraw u s.transactions amount reference now idFrag with
    | error e => exact ⟨hw, ht⟩
    | ok p =>
      obtain ⟨w1, txns1⟩ := p
      obtain ⟨hpos1, hav, hbal, hres, tnew, htn, rfl⟩ := withdraw_ok hwd
      refine ⟨setWallet_walletInv hw ?_, amounts_pos_append ht (by linarith)⟩
      obtain ⟨h1, h2⟩ := hw u
      unfold Wallet.available_balance at hav
      exact ⟨by rw [hres]; exact h1, by rw [hres, hbal]; linarith⟩
  | opReserve u amount reference now idFrag =>
    dsimp only [runOp]
    cases hrs : (s.wallets u).reserve_funds u s.transactions amount reference now idFrag with
    | error e => exact ⟨hw, ht⟩
    | ok p =>
      obtain ⟨w1, txns1⟩ := p
      obtain ⟨hpos1, hav, hbal, hres, tnew, htn, rfl⟩ := reserve_funds_ok hrs
      refine ⟨setWallet_walletInv hw ?_, amounts_pos_append ht (by linarith)⟩
      obtain ⟨h1, h2⟩ := hw u
      unfold Wallet.available_balance at hav
      exact ⟨by rw [hres]; linarith, by rw [hres, hbal]; linarith⟩
  | opRelease u amount reference =>
    dsimp only [runOp]
    cases hrl : (s.wallets u).release_reserved_funds s.transactions amount reference with
    | error e => exact ⟨hw, ht⟩
    | ok p =>
      obtain ⟨w1, txns1⟩ := p
      obtain ⟨hpos1, hle, hbal, hres, rfl⟩ := release_reserved_funds_ok hrl
      refine ⟨setWallet_walletInv hw ?_, closeReservationTxn_amounts ht⟩
      obtain ⟨h1, h2⟩ := hw u
      exact ⟨by rw [hres]; linarith, by rw [hres, hbal]; linarith⟩
  | opComplete u amount reference =>
    dsimp only [runOp]
    cases hcp : (s.wallets u).complete_reservation s.transactions amount reference with
    | error e => exact ⟨hw, ht⟩
    | ok p =>
      obtain ⟨w1, txns1⟩ := p
      obtain ⟨hpos1, hle, hbal, hres, rfl⟩ := complete_reservation_ok hcp
      refine ⟨setWallet_walletInv hw ?_, closeReservationTxn_amounts ht⟩
      obtain ⟨h1, h2⟩ := hw u
      exact ⟨by rw [hres]; linarith, by rw [hres, hbal]; linarith⟩
  | opViewTransfer u attrs now =>
    exact post_storeInv ⟨hw, ht⟩
  | opServiceTransfer u amount acct bank descr uuid8 now gw =>
    exact transfer_funds_storeInv acct bank descr uuid8 now gw ⟨hw, ht⟩ hpos
  | opVerifyPayment reference now gw =>
    exact verify_payment_storeInv reference now gw ⟨hw, ht⟩

theorem runOps_storeInv {s : Store} {ops : List WalletOp} (hs : StoreInv s)
    (hpos : ∀ op ∈ ops, OpAmountPos op) : StoreInv (runOps s ops) := by
  induction ops generalizing s with
  | nil => exact hs
  | cons op rest ih =>
    exact ih (runOp_storeInv op hs (hpos op (by simp)))
      (fun op2 h2 => hpos op2 (by simp [h2]))


/-- C7: a transfer request that carries a saved-beneficiary id together with any
truthy raw recipient field (phone, account number or bank code) is rejected by
`TransferFundsSerializer.validate` with the dedicated ambiguity
`ValidationError`, never silently resolved in favour of one source. -/
theorem C7_ambiguous_recipient_rejected (attrs : TransferAttrs)
    (hben : attrs.beneficiary_id.isSome = true)
    (hraw : truthy attrs.recipient_phone = true ∨
      truthy attrs.recipient_account_number = true ∨
      truthy attrs.recipient_bank_code = true) :
    TransferFundsSerializer.validate attrs
      = .error "Do not provide recipient details when using beneficiary_id." := by
  unfold TransferFundsSerializer.validate
  rw [if_neg (by simp [hben]), if_pos ⟨hben, hraw⟩]

/-- C7 witness: a concrete request supplying both a beneficiary id and a raw
recipient phone is rejected as ambiguous. -/
theorem C7_ambiguous_recipient_rejected_witness :
    TransferFundsSerializer.validate
      { amount := 200000, pin := "1234", description := "",
        recipient_phone := some "+2347000000002",
        recipient_account_number := none, recipient_bank_code := none,
        beneficiary_id := some 7 }
      = .error "Do not provide recipient details when using beneficiary_id." :=
  C7_ambiguous_recipient_rejected _ rfl (Or.inl (by decide))

/-- C8: `Wallet.complete_reservation` with `0 < amount ≤ reserved_balance`
decreases only `reserved_balance`; the total `balance` column is untouched, so
`available_balance` increases by the amount — completing a reservation returns
the reserved funds to availability instead of deducting them. -/
theorem C8_complete_reservation_frame (w : Wallet) (txns : List Transaction)
    (amount : Money) (reference : String) (hpos : 0 < amount)
    (hle : amount ≤ w.reserved_balance) :
    ∃ w1 txns1, w.complete_reservation txns amount reference = .ok (w1, txns1)
      ∧ w1.balance = w.balance
      ∧ w1.reserved_balance = w.reserved_balance - amount
      ∧ w1.available_balance = w.available_balance + amount := by
  unfold Wallet.complete_reservation
  rw [if_neg (by push_neg; exact ⟨hpos, hle⟩)]
  refine ⟨_, _, rfl, rfl, rfl, ?_⟩
  unfold Wallet.available_balance
  dsimp only
  ring

/-- C8 witness: completing a 2.00 reservation on a wallet holding 10.00 with
3.00 reserved leaves balance 10.00, reserved 1.00, available 9.00. -/
theorem C8_complete_reservation_frame_witness :
    ∃ w1 txns1,
      Wallet.complete_reservation ⟨1000, 300⟩ [] 200 "" = .ok (w1, txns1)
      ∧ w1.balance = 1000 ∧ w1.reserved_balance = 100 ∧ w1.available_balance = 900 := by
  obtain ⟨w1, txns1, h1, h2, h3, h4⟩ :=
    C8_complete_reservation_frame ⟨1000, 300⟩ [] 200 "" (by decide) (by decide)
  exact ⟨w1, txns1, h1, h2, h3, h4⟩

/-- C6 counterexample: the reference generated by `Transaction.save` does not
carry a prefix for the operation kind: a deposit row and a transfer row
persisted without a reference at the same timestamp and uuid fragment receive
the identical reference, with the one fixed prefix `TXN`. -/
theorem C6_counterexample :
    (depositTxnNoRef.applySaveRef "20250101000000" "AB12CD34").reference
      = (transferTxnNoRef.applySaveRef "20250101000000" "AB12CD34").reference
    ∧ depositTxnNoRef.transaction_type ≠ transferTxnNoRef.transaction_type
    ∧ (depositTxnNoRef.applySaveRef "20250101000000" "AB12CD34").reference
      = "TXN20250101000000AB12CD34" := by
  refine ⟨rfl, by decide, rfl⟩

/-- C6 (amended): a transaction persisted without a caller-supplied reference
is assigned, at creation, the fixed prefix `TXN` followed by the timestamp and
uuid fragment (the same prefix for every operation kind); a transaction whose
reference is already set is never regenerated; and inserting under the
database's unique constraint preserves global uniqueness of references. -/
theorem C6_reference_generation_unique (t tIns : Transaction) (now idFrag : String)
    {txns txns1 : List Transaction}
    (hu : txns.Pairwise (fun a b => a.reference ≠ b.reference))
    (hins : insertTxn txns tIns = some txns1) :
    (t.reference = "" → (t.applySaveRef now idFrag).reference = "TXN" ++ now ++ idFrag)
    ∧ (t.reference ≠ "" → t.applySaveRef now idFrag = t)
    ∧ txns1.Pairwise (fun a b => a.reference ≠ b.reference) := by
  refine ⟨?_, ?_, ?_⟩
  · intro h
    unfold Transaction.applySaveRef
    rw [if_pos h]
  · exact fun h => applySaveRef_keeps h now idFrag
  · obtain ⟨rfl, hfresh⟩ := insertTxn_ok hins
    rw [List.pairwise_append]
    refine ⟨hu, List.pairwise_singleton _ _, ?_⟩
    intro a ha b hb
    rw [List.mem_singleton] at hb
    subst hb
    exact hfresh a ha

/-- C6 witness: generation for an empty reference, stability for a set one, and
uniqueness after one constrained insert, at concrete inputs. -/
theorem C6_reference_generation_unique_witness :
    ((transferTxnNoRef.reference = "" →
        (transferTxnNoRef.applySaveRef "20250101000000" "AB12CD34").reference
          = "TXN" ++ "20250101000000" ++ "AB12CD34")
    ∧ (transferTxnNoRef.reference ≠ "" →
        transferTxnNoRef.applySaveRef "20250101000000" "AB12CD34" = transferTxnNoRef)
    ∧ ([completedTxn].Pairwise (fun a b => a.reference ≠ b.reference))) :=
  C6_reference_generation_unique transferTxnNoRef completedTxn "20250101000000" "AB12CD34"
    (List.Pairwise.nil) rfl


/-- C3: for a reference whose transaction is already `completed`,
`PaymentService.verify_payment` returns the completed envelope immediately,
without contacting the gateway and without touching the store; a second call on
the same reference returns the same result, so the balance effect is never
applied a second time. -/
theorem C3_verify_completed_idempotent (s : Store) (reference now1 now2 : String)
    (gw1 gw2 : GatewayVerify) (txn : Transaction)
    (hfind : s.transactions.find? (fun t => t.reference = reference) = some txn)
    (hdone : txn.status = .completed) :
    PaymentService.verify_payment s reference now1 gw1
      = (.ok { retOk := true, dstatus := "completed" }, s, false)
    ∧ PaymentService.verify_payment
        (PaymentService.verify_payment s reference now1 gw1).2.1 reference now2 gw2
      = (.ok { retOk := true, dstatus := "completed" }, s, false) := by
  have h1 : PaymentService.verify_payment s reference now1 gw1
      = (.ok { retOk := true, dstatus := "completed" }, s, false) := by
    unfold PaymentService.verify_payment
    rw [hfind]
    dsimp only
    rw [if_pos hdone]
  refine ⟨h1, ?_⟩
  rw [h1]
  unfold PaymentService.verify_payment
  rw [hfind]
  dsimp only
  rw [if_pos hdone]

/-- C3 witness: two verifications of the completed reference DEP-1 both return
the completed envelope, leave the store unchanged and never contact the
gateway. -/
theorem C3_verify_completed_idempotent_witness :
    PaymentService.verify_payment storeWithCompleted "DEP-1" "t1" (.ok true "m" "successful")
      = (.ok { retOk := true, dstatus := "completed" }, storeWithCompleted, false)
    ∧ PaymentService.verify_payment
        (PaymentService.verify_payment storeWithCompleted "DEP-1" "t1"
          (.ok true "m" "successful")).2.1 "DEP-1" "t2" (.ok true "m" "successful")
      = (.ok { retOk := true, dstatus := "completed" }, storeWithCompleted, false) :=
  C3_verify_completed_idempotent storeWithCompleted "DEP-1" "t1" "t2" _ _ completedTxn rfl rfl

/-- C10: the early-return guard of `verify_payment` fires only for `completed`
transactions.  For a transfer-type transaction already marked `failed`, every
further call contacts the gateway again, and whenever the gateway reports
failure (falsy `status` or `data.status` equal to failed) the compensating
credit of the transaction amount is applied to the wallet again. -/
theorem C10_failed_transfer_reverified (s : Store) (reference now : String)
    (gw : GatewayVerify) (txn : Transaction)
    (hfind : s.transactions.find? (fun t => t.reference = reference) = some txn)
    (hfailed : txn.status = .failed) (htype : txn.transaction_type = .transfer) :
    (PaymentService.verify_payment s reference now gw).2.2 = true
    ∧ (∀ gok gmsg gstatus, gw = .ok gok gmsg gstatus →
        (gok = false ∨ strLower gstatus = "failed") →
        (((PaymentService.verify_payment s reference now gw).2.1.wallets txn.wallet).balance
          = (s.wallets txn.wallet).balance + txn.amount)) := by
  have hnc : ¬ txn.status = TransactionStatus.completed := by
    rw [hfailed]
    decide
  unfold PaymentService.verify_payment
  rw [hfind]
  dsimp only
  rw [if_neg hnc]
  cases gw with
  | exn msg =>
    refine ⟨rfl, ?_⟩
    intro gok gmsg gstatus hcontra
    cases hcontra
  | ok gok gmsg gstatus =>
    dsimp only
    by_cases hok : gok = false
    · rw [if_pos hok]
      refine ⟨rfl, ?_⟩
      intro gok2 gmsg2 gstatus2 heq2 hfail2
      rw [if_pos htype]
      simp [Store.setWallet]
    · rw [if_neg hok]
      by_cases hsucc : strLower gstatus = "successful"
      · rw [if_pos hsucc]
        refine ⟨by split <;> rfl, ?_⟩
        intro gok2 gmsg2 gstatus2 heq2 hfail2
        cases heq2
        rcases hfail2 with hfail2 | hfail2
        · exact absurd hfail2 hok
        · rw [hsucc] at hfail2
          exact absurd hfail2 (by decide)
      · rw [if_neg hsucc]
        by_cases hfailg : strLower gstatus = "failed"
        · rw [if_pos hfailg]
          refine ⟨rfl, ?_⟩
          intro gok2 gmsg2 gstatus2 heq2 hfail2
          rw [if_pos htype]
          simp [Store.setWallet]
        · rw [if_neg hfailg]
          refine ⟨rfl, ?_⟩
          intro gok2 gmsg2 gstatus2 heq2 hfail2
          cases heq2
          rcases hfail2 with hfail2 | hfail2
          · exact absurd hfail2 hok
          · exact absurd hfail2 hfailg

/-- C10 witness: re-verifying the failed transfer TRF-F1 contacts the gateway
and, on a failed gateway result, credits the 3000.00 amount to wallet 0 again. -/
theorem C10_failed_transfer_reverified_witness :
    (PaymentService.verify_payment storeWithFailed "TRF-F1" "t"
        (.ok true "declined" "failed")).2.2 = true
    ∧ ((PaymentService.verify_payment storeWithFailed "TRF-F1" "t"
        (.ok true "declined" "failed")).2.1.wallets 0).balance
      = (storeWithFailed.wallets 0).balance + 300000 := by
  obtain ⟨h1, h2⟩ := C10_failed_transfer_reverified storeWithFailed "TRF-F1" "t"
    (.ok true "declined" "failed") failedTransferTxn rfl rfl rfl
  exact ⟨h1, h2 true "declined" "failed" rfl (Or.inr (by decide))⟩


/-- C1 (amended): starting from a store whose wallets all satisfy
`balance ≥ reserved_balance ≥ 0` and whose transaction rows all carry positive
amounts, and for any sequence of the listed wallet operations in which every
amount passed directly to `PaymentService.transfer_funds` is strictly positive,
after every prefix of the sequence each wallet satisfies
`available_balance = balance - reserved_balance ≥ 0`. -/
theorem C1_available_balance_invariant (s : Store) (ops pre suf : List WalletOp)
    (hs : StoreInv s) (hpos : ∀ op ∈ ops, OpAmountPos op)
    (hsplit : ops = pre ++ suf) (u : UserId) :
    ((runOps s pre).wallets u).available_balance
      = ((runOps s pre).wallets u).balance - ((runOps s pre).wallets u).reserved_balance
    ∧ 0 ≤ ((runOps s pre).wallets u).available_balance := by
  subst hsplit
  have hpre : ∀ op ∈ pre, OpAmountPos op :=
    fun op h => hpos op (List.mem_append.mpr (Or.inl h))
  exact ⟨rfl, walletInv_available ((runOps_storeInv hs hpre).1 u)⟩

/-- C1 witness: a deposit of 50.00 into the empty store keeps wallet 0's
available balance non-negative. -/
theorem C1_available_balance_invariant_witness :
    0 ≤ ((runOps zeroStore
      [WalletOp.opDeposit 0 5000 "" "20250101000000" "AB12CD34"]).wallets 0).available_balance := by
  have hs : StoreInv zeroStore := by
    constructor
    · exact fun u => ⟨le_refl 0, le_refl 0⟩
    · intro t ht
      simp [zeroStore] at ht
  have hpos : ∀ op ∈ [WalletOp.opDeposit 0 5000 "" "20250101000000" "AB12CD34"],
      OpAmountPos op := by
    intro op hop
    rw [List.mem_singleton] at hop
    subst hop
    trivial
  exact (C1_available_balance_invariant zeroStore _ _ [] hs hpos
    (List.append_nil _).symm 0).2

/-- C1 counterexample: starting from healthy wallets (all balances and reserves
zero), `PaymentService.transfer_funds` accepts the amount -100.00 because its
only guard is `available_balance < amount`; the debit then credits 100.00.  The
resulting pending transfer is verified twice against a gateway that reports
failure, and since `verify_payment` short-circuits only on `completed`, each
call re-applies the compensating credit of the (negative) amount, ending with
`available_balance = -100.00 < 0`: the claimed invariant fails for this
sequence of wallet operations. -/
theorem C1_counterexample :
    (∀ u, WalletInv (zeroStore.wallets u))
    ∧ ((runOps zeroStore negTransferOps).wallets 0).available_balance = -10000
    ∧ ((runOps zeroStore negTransferOps).wallets 0).available_balance < 0 := by
  refine ⟨fun u => ⟨le_refl 0, le_refl 0⟩, by decide, by decide⟩


/-- C4 evaluation at the failing input: an external transfer of 5000.00 from
wallet 0 (balance 10000.00) whose gateway call raises.  The committed result of
`PaymentService.transfer_funds` is the propagated `PaymentError` with the store
rolled back to its pre-call state: the balance is back at 10000.00, but no
transaction with the generated reference exists at all — the failed-status /
error-metadata write happens inside the `db_transaction.atomic()` block (the
last two conjuncts evaluate the block state at the `raise`) and is rolled back
together with the debit when the `PaymentError` escapes the block, contradicting
the claimed persisted `failed` record. -/
theorem C4_gateway_exception_rolls_back_failed_record :
    PaymentService.transfer_funds exampleStore 0 500000 "0123456789" "058" "rent"
        "DEADBEEF" "T0" (.exn "network down")
      = (.error "Failed to initiate transfer: network down", exampleStore)
    ∧ ((PaymentService.transfer_funds exampleStore 0 500000 "0123456789" "058" "rent"
        "DEADBEEF" "T0" (.exn "network down")).2.wallets 0).balance = 1000000
    ∧ (PaymentService.transfer_funds exampleStore 0 500000 "0123456789" "058" "rent"
        "DEADBEEF" "T0" (.exn "network down")).2.transactions.filter
        (fun t => t.reference = "TRF-DEADBEEF") = []
    ∧ (transferFundsBlock exampleStore 0 (exampleStore.wallets 0) 500000 "0123456789" "058"
        "rent" "TRF-DEADBEEF" "T0" (.exn "network down")).2.transactions.filter
        (fun t => t.reference = "TRF-DEADBEEF")
      = [{ wallet := 0, amount := 500000, transaction_type := .transfer,
           status := .failed, reference := "TRF-DEADBEEF", description := "rent",
           metadata := [("recipient_account", "0123456789"),
                        ("recipient_bank_code", "058"), ("error", "network down")],
           recipient := none }]
    ∧ ((transferFundsBlock exampleStore 0 (exampleStore.wallets 0) 500000 "0123456789" "058"
        "rent" "TRF-DEADBEEF" "T0" (.exn "network down")).2.wallets 0).balance = 1000000 := by
  refine ⟨rfl, by decide, by decide, by decide, by decide⟩

/-- C2 evaluation at the failing input: the scenario of
wallets/tests/test_views.py (test_transfer_funds_to_user) — user 0 with balance
10000.00 and correct PIN 1234 transfers 2000.00 to the platform user with phone
+2347000000002.  The request passes field and structural validation and then
dies on the `KeyError` at serializers.py line 239 inside `is_valid()` (the view
supplies no serializer context): the response is a 500, both wallets keep their
initial balances, and no transaction or notification is created — no internal
transfer ever completes through `TransferFundsView`, while the repository's own
test asserts sender 8000.00, recipient 7000.00, a completed transaction and a
recipient notification. -/
theorem C2_transfer_view_crashes_before_transfer :
    TransferFundsView.post exampleStore 0 exampleAttrs "X" = (.serverError, exampleStore)
    ∧ ((TransferFundsView.post exampleStore 0 exampleAttrs "X").2.wallets 0).balance = 1000000
    ∧ ((TransferFundsView.post exampleStore 0 exampleAttrs "X").2.wallets 1).balance = 500000
    ∧ (TransferFundsView.post exampleStore 0 exampleAttrs "X").2.transactions = []
    ∧ (TransferFundsView.post exampleStore 0 exampleAttrs "X").2.notifications = [] := by
  refine ⟨rfl, by decide, by decide, rfl, rfl⟩

/-- C9 counterexample: the self-transfer request (recipient phone resolving to
the initiating user 0) is structurally valid, so it crashes on the serializer's
context access before any wallet read or write: the response is a 500 and the
wallet's final persisted balance equals its initial 10000.00 — not the claimed
initial balance plus the 2000.00 amount. -/
theorem C9_counterexample :
    (TransferFundsView.post exampleStore 0 selfAttrs "X").1 = .serverError
    ∧ ((TransferFundsView.post exampleStore 0 selfAttrs "X").2.wallets 0).balance
        = (exampleStore.wallets 0).balance
    ∧ ((TransferFundsView.post exampleStore 0 selfAttrs "X").2.wallets 0).balance
        ≠ (exampleStore.wallets 0).balance + selfAttrs.amount := by
  refine ⟨by decide, by decide, by decide⟩

/-- C9 (amended): for every transfer request in `TransferFundsView` whose
recipient phone resolves to the initiating user themself and which passes field
and structural validation, the serializer's context access raises `KeyError`
before any wallet read or write: the request fails with a 500 and the single
wallet's final persisted balance equals its initial balance — the
snapshot-overwrite credit of views.py lines 147-155 is dead code and never
runs. -/
theorem C9_self_transfer_request_crashes (s : Store) (u : UserId)
    (attrs : TransferAttrs) (now p : String)
    (hfv : fieldValidate attrs = true)
    (hv : TransferFundsSerializer.validate attrs = .keyError)
    (hphone : attrs.recipient_phone = some p)
    (howner : s.phoneOwner p = some u) :
    TransferFundsView.post s u attrs now = (.serverError, s)
    ∧ ((TransferFundsView.post s u attrs now).2.wallets u).balance
        = (s.wallets u).balance := by
  have h1 : TransferFundsView.post s u attrs now = (.serverError, s) := by
    unfold TransferFundsView.post
    rw [if_neg (by simp [hfv]), hv]
  exact ⟨h1, by rw [h1]⟩

/-- C9 witness: user 0 (balance 10000.00) submits the 2000.00 transfer to their
own phone number; the request fails with a 500 and the balance stays at
10000.00. -/
theorem C9_self_transfer_request_crashes_witness :
    TransferFundsView.post exampleStore 0 selfAttrs "X" = (.serverError, exampleStore)
    ∧ ((TransferFundsView.post exampleStore 0 selfAttrs "X").2.wallets 0).balance
        = (exampleStore.wallets 0).balance :=
  C9_self_transfer_request_crashes exampleStore 0 selfAttrs "X" "+2347000000000"
    (by decide) rfl rfl rfl

/-- C5: a transfer request that fails serializer validation (including any
amount below 0.01), the view's PIN check or the available-balance check is
rejected with no store mutation at all: the committed store is the pre-call
store (both wallets and the transaction table unchanged, so in particular no
completed transaction is created) and the response is never a success. -/
theorem C5_rejected_before_mutation (s : Store) (u : UserId) (attrs : TransferAttrs)
    (now : String)
    (hrej : fieldValidate attrs = false
      ∨ (∃ m, TransferFundsSerializer.validate attrs = .error m)
      ∨ attrs.pin ≠ s.pins u
      ∨ (s.wallets u).available_balance < attrs.amount) :
    (TransferFundsView.post s u attrs now).2 = s
    ∧ ∀ ref, (TransferFundsView.post s u attrs now).1 ≠ .success ref :=
  ⟨post_store_unchanged s u attrs now, post_never_success s u attrs now⟩

/-- C5 witness: the 2000.00 transfer request with the wrong PIN 9999 leaves the
store untouched and is not a success. -/
theorem C5_rejected_before_mutation_witness :
    (TransferFundsView.post exampleStore 0 { exampleAttrs with pin := "9999" } "X").2
      = exampleStore
    ∧ ∀ ref, (TransferFundsView.post exampleStore 0
        { exampleAttrs with pin := "9999" } "X").1 ≠ .success ref :=
  C5_rejected_before_mutation exampleStore 0 { exampleAttrs with pin := "9999" } "X"
    (Or.inr (Or.inr (Or.inl (by decide))))

end Paypadi
